import Mathlib

/-!
Verification of the Neural Content Protocol (NCP) v1.0 validator
(src/sdks/python/neural_content_protocol/validator.py).

The validator is shallowly embedded: Python JSON-decoded values become the
inductive `Json` (Python `None` and JSON `null` both map to `Json.null`, which
is also what `dict.get` yields for a missing key, exactly as in Python),
Python `dict` becomes an association list, Python numbers become `Rat`
(Python `bool` is a subclass of `int`, so `isinstance(x, (int, float))`
accepts booleans; `pyIsNumber`/`pyNumVal` reproduce that), and the mutable
`result` dictionary becomes the structure `ValidationResult` threaded through
the checks in the source's execution order.

Standard-library collaborators of the source (`urllib.parse.urlparse(...)
.hostname`, `str.replace`, `datetime.fromisoformat`) are modelled by
executable functions below, each documented at its definition.
-/

namespace NcpValidator

/-- JSON-decoded Python values. `Json.null` stands both for JSON `null` and
for Python `None` (the two are one object in the source). -/
inductive Json where
  | null : Json
  | bool (b : Bool) : Json
  | num (q : Rat) : Json
  | str (s : String) : Json
  | arr (elems : List Json) : Json
  | obj (fields : List (String × Json)) : Json

/-- Python `dict.get(key)`: the value stored at `key`, or `None`
(= `Json.null`) when the key is absent. -/
def pyGet (fields : List (String × Json)) (key : String) : Json :=
  match fields.find? (fun kv => kv.1 == key) with
  | some kv => kv.2
  | none => Json.null

/-- Python `key in dict`. -/
def hasKey (fields : List (String × Json)) (key : String) : Bool :=
  fields.any (fun kv => kv.1 == key)

/-- Python truthiness of a JSON-decoded value. -/
def jsonTruthy : Json → Bool
  | Json.null => false
  | Json.bool b => b
  | Json.num q => decide (q ≠ 0)
  | Json.str s => decide (s ≠ "")
  | Json.arr l => !l.isEmpty
  | Json.obj l => !l.isEmpty

/-- Python truthiness of the optional `crawled_domain` argument (`None` and
the empty string are falsy). -/
def optStrTruthy : Option String → Bool
  | some s => decide (s ≠ "")
  | none => false

/-- Python `isinstance(x, (int, float))`. Python `bool` is a subclass of
`int`, so booleans pass this test. -/
def pyIsNumber : Json → Bool
  | Json.num _ => true
  | Json.bool _ => true
  | _ => false

/-- The numeric value Python arithmetic sees for a value passing
`pyIsNumber` (`True == 1`, `False == 0`). -/
def pyNumVal : Json → Rat
  | Json.num q => q
  | Json.bool b => if b then 1 else 0
  | _ => 0

/-- Rational `a ≤ b` by cross multiplication (both `den` fields are
positive), kept executable by kernel reduction. -/
def ratLeB (a b : Rat) : Bool := decide (a.num * (b.den : Int) ≤ b.num * (a.den : Int))

/-- Rational `a < b`. -/
def ratLtB (a b : Rat) : Bool := !ratLeB b a

/-- The rational `n/1`, built without normalisation so that it reduces. -/
def ratInt (n : Int) : Rat := ⟨n, 1, one_ne_zero, Nat.coprime_one_right _⟩

/-- The rational `17/2 = 8.5`, built without normalisation. -/
def ratHalf17 : Rat := ⟨17, 2, by decide, by decide⟩

/-- `pre` is a leading piece of `l` (character lists). -/
def listIsPre : List Char → List Char → Bool
  | [], _ => true
  | _ :: _, [] => false
  | a :: as, b :: bs => a == b && listIsPre as bs

/-- Python `s.startswith(pre)`. -/
def pyStartsWith (s pre : String) : Bool := listIsPre pre.data s.data

/-- Helper for `pyReplace`: replace every non-overlapping occurrence of
`sub` (assumed non-empty at every call site) left to right. The fuel is the
input length, enough for full traversal, and keeps the recursion
structural so that terms reduce. -/
def pyReplaceAux (sub repl : List Char) : Nat → List Char → List Char
  | _, [] => []
  | 0, l => l
  | Nat.succ fuel, c :: rest =>
    if !sub.isEmpty && listIsPre sub (c :: rest) then
      repl ++ pyReplaceAux sub repl fuel (List.drop (sub.length - 1) rest)
    else
      c :: pyReplaceAux sub repl fuel rest

/-- Python `s.replace(sub, repl)`: every non-overlapping occurrence of `sub`
in `s`, scanned left to right, is replaced by `repl` (NOT only a leading
occurrence). The source calls it with subs `"www."` and `"Z"`. -/
def pyReplace (s sub repl : String) : String :=
  String.mk (pyReplaceAux sub.data repl.data s.data.length s.data)

/-- Modelled after the spec's words for check 3c ("strip a leading `www.`
from both sides"): removes one leading `"www."` and nothing else. Used only
to compare the spec's described stripping with the source's
`str.replace('www.', '')`, which removes every occurrence. -/
def specStripLeadWww (s : String) : String :=
  if listIsPre "www.".data s.data then String.mk (s.data.drop 4) else s

/-- The network location of a URL that starts with `"https://"`: the
characters after the scheme's `"//"` up to the first `/`, `?` or `#`,
as `urllib.parse.urlsplit` computes it. -/
def netlocOf (url : String) : List Char :=
  (url.data.drop 8).takeWhile (fun c => !(c == '/') && !(c == '?') && !(c == '#'))

/-- The part of the netloc after its last `@` (`str.rpartition` in
`urllib.parse._hostinfo`). -/
def afterLastAt (l : List Char) : List Char :=
  (l.reverse.takeWhile (fun c => !(c == '@'))).reverse

/-- Models `urllib.parse.urlparse(url).hostname` for the URLs the source
feeds it (strings starting with `"https://"` and free of ASCII control
characters, which modern CPython strips before parsing): the netloc is cut
at `/`, `?` or `#`; a netloc with a `[` but no `]` (or conversely) raises
`ValueError("Invalid IPv6 URL")`, modelled as `Except.error`; the host is
the part after the last `@`, inside the brackets when a `[` is present and
otherwise up to the first `:`, lowercased; an empty host is `None`. -/
def pyUrlparseHostname (url : String) : Except Unit (Option String) :=
  let netloc := netlocOf url
  if (netloc.contains '[' || netloc.contains ']') &&
      !(netloc.contains '[' && netloc.contains ']') then
    Except.error ()
  else
    let hostinfo := afterLastAt netloc
    let host :=
      if hostinfo.contains '[' then
        ((hostinfo.dropWhile (fun c => !(c == '['))).drop 1).takeWhile (fun c => !(c == ']'))
      else
        hostinfo.takeWhile (fun c => !(c == ':'))
    let lowered := host.map Char.toLower
    if lowered.isEmpty then Except.ok none else Except.ok (some (String.mk lowered))

/-- ASCII digit test. -/
def digitB (c : Char) : Bool := c.isDigit

/-- The number named by two ASCII digit characters. -/
def twoDig (a b : Char) : Nat := (a.toNat - 48) * 10 + (b.toNat - 48)

def isLeap (y : Nat) : Bool := (y % 4 == 0 && y % 100 != 0) || (y % 400 == 0)

def daysInMonth (y m : Nat) : Nat :=
  if m == 2 then (if isLeap y then 29 else 28)
  else if m == 4 || m == 6 || m == 9 || m == 11 then 30
  else 31

/-- A UTC-offset tail `±HH:MM` as `datetime.fromisoformat` accepts it. -/
def tzOk : List Char → Bool
  | s :: h1 :: h2 :: ':' :: m1 :: m2 :: [] =>
    (s == '+' || s == '-') && digitB h1 && digitB h2 && digitB m1 && digitB m2 &&
      decide (twoDig h1 h2 < 24) && decide (twoDig m1 m2 < 60)
  | _ => false

/-- What may follow the seconds: nothing, a fraction of 1 to 6 digits, or an
offset; the fraction may itself be followed by an offset. -/
def afterSecOk : List Char → Bool
  | [] => true
  | '.' :: rest =>
    let frac := rest.takeWhile digitB
    decide (1 ≤ frac.length) && decide (frac.length ≤ 6) &&
      ((rest.drop frac.length).isEmpty || tzOk (rest.drop frac.length))
  | l => tzOk l

/-- What may follow `HH:MM`: nothing, `:SS` with its own tail, or an offset. -/
def afterMinOk : List Char → Bool
  | [] => true
  | ':' :: s1 :: s2 :: rest =>
    digitB s1 && digitB s2 && decide (twoDig s1 s2 < 60) && afterSecOk rest
  | l => tzOk l

/-- A time `HH:MM...` as `datetime.fromisoformat` accepts it. -/
def timeOk : List Char → Bool
  | h1 :: h2 :: ':' :: m1 :: m2 :: rest =>
    digitB h1 && digitB h2 && digitB m1 && digitB m2 &&
      decide (twoDig h1 h2 < 24) && decide (twoDig m1 m2 < 60) && afterMinOk rest
  | _ => false

/-- Models `datetime.fromisoformat(s)` succeeding, restricted to the shapes
this development exercises: `YYYY-MM-DD`, optionally followed by one
separator character and a time `HH:MM[:SS[.f{1,6}]][±HH:MM]`. (CPython also
accepts further ISO-8601 shapes; none of them are relevant here, and the
restriction never decides a generic theorem below.) -/
def pyFromIsoformatOk (s : String) : Bool :=
  match s.data with
  | y1 :: y2 :: y3 :: y4 :: '-' :: m1 :: m2 :: '-' :: d1 :: d2 :: rest =>
    digitB y1 && digitB y2 && digitB y3 && digitB y4 &&
      digitB m1 && digitB m2 && digitB d1 && digitB d2 &&
      (let y := ((twoDig y1 y2) * 100 + twoDig y3 y4)
       let mo := twoDig m1 m2
       let da := twoDig d1 d2
       decide (1 ≤ mo) && decide (mo ≤ 12) && decide (1 ≤ da) &&
         decide (da ≤ daysInMonth y mo)) &&
      (match rest with
       | [] => true
       | _sep :: timeChars => timeOk timeChars)
  | _ => false

/-- One finding, field for field the `error_obj` dictionary of
`NcpValidator._add_error`. -/
structure Finding where
  code : String
  severity : String
  message : String
  path : String
deriving DecidableEq, Repr

/-- The `result` dictionary of `NcpValidator.validate`. -/
structure ValidationResult where
  ncp_version : String
  status : String
  compliance_level : String
  score : Int
  blocking_errors : List Finding
  warnings : List Finding
  recommendations : List Finding
deriving DecidableEq, Repr

/-- The fresh `result` dictionary `validate` starts from. -/
def initResult : ValidationResult :=
  { ncp_version := "1.0", status := "FAIL", compliance_level := "NONE", score := 100,
    blocking_errors := [], warnings := [], recommendations := [] }

/-- `NcpValidator._add_error`: route the finding into the bucket named by its
severity, preserving insertion order. -/
def addError (code message path severity : String) (r : ValidationResult) : ValidationResult :=
  let errorObj : Finding := { code := code, severity := severity, message := message, path := path }
  if severity = "BLOCKING" then
    { r with blocking_errors := r.blocking_errors ++ [errorObj] }
  else if severity = "WARNING" then
    { r with warnings := r.warnings ++ [errorObj] }
  else
    { r with recommendations := r.recommendations ++ [errorObj] }

/-- `result['score'] -= n`. -/
def subScore (n : Int) (r : ValidationResult) : ValidationResult :=
  { r with score := r.score - n }

def SEMANTIC_TYPES : List String :=
  ["universal", "product", "article", "organization", "service", "person", "event"]

/-- Check 1 of `validate`: `payload.get('protocol') != 'NCP/1.0'`. -/
def checkProtocol (payload : List (String × Json)) (r : ValidationResult) : ValidationResult :=
  match pyGet payload "protocol" with
  | Json.str s =>
    if s = "NCP/1.0" then r
    else addError "PROTOCOL_INVALID" "protocol MUST be exact string \"NCP/1.0\"." "$.protocol" "BLOCKING" r
  | _ => addError "PROTOCOL_INVALID" "protocol MUST be exact string \"NCP/1.0\"." "$.protocol" "BLOCKING" r

/-- Check 2 of `validate`: `semantic_type` must be a string; a string outside
`SEMANTIC_TYPES` is only a warning with a 10 point deduction. -/
def checkSemanticType (payload : List (String × Json)) (r : ValidationResult) : ValidationResult :=
  match pyGet payload "semantic_type" with
  | Json.str s =>
    if SEMANTIC_TYPES.contains s then r
    else
      subScore 10 (addError "SEMANTIC_TYPE_UNKNOWN"
        ("semantic_type '" ++ s ++ "' is not an official v1.0 enum.")
        "$.semantic_type" "WARNING" r)
  | _ => addError "SEMANTIC_TYPE_MISSING" "semantic_type MUST be a string." "$.semantic_type" "BLOCKING" r

/-- Check 3a of `validate`: `identity.name` must be a string of 3 to 120
characters. -/
def checkIdentityName (identity : List (String × Json)) (r : ValidationResult) : ValidationResult :=
  match pyGet identity "name" with
  | Json.str s =>
    if 3 ≤ s.length ∧ s.length ≤ 120 then r
    else addError "IDENTITY_NAME_INVALID" "Identity name MUST be string between 3 and 120 chars." "$.identity.name" "BLOCKING" r
  | _ => addError "IDENTITY_NAME_INVALID" "Identity name MUST be string between 3 and 120 chars." "$.identity.name" "BLOCKING" r

/-- The source's local `payload_host = parsed_url.hostname.replace('www.',
'') if parsed_url.hostname else ''`, as a function of the parsed hostname. -/
def payload_host (h : Option String) : String :=
  match h with
  | some hn => pyReplace hn "www." ""
  | none => ""

/-- The source's local `crawled_host = crawled_domain.replace('www.', '')`
(only evaluated under the `elif crawled_domain:` guard, so the default
`""` of the absent case is never reached). -/
def crawled_host (crawled_domain : Option String) : String :=
  pyReplace (crawled_domain.getD "") "www." ""

/-- Checks 3b, 3c, 3d of `validate`: `identity.url` must be a string starting
with `"https://"`; when it is and `crawled_domain` is truthy, the origin
comparison runs, a `urlparse` failure being caught and converted into the
BLOCKING `IDENTITY_URL_MALFORMED` finding. -/
def checkIdentityUrl (identity : List (String × Json)) (crawled_domain : Option String)
    (r : ValidationResult) : ValidationResult :=
  match pyGet identity "url" with
  | Json.str url =>
    if pyStartsWith url "https://" then
      if optStrTruthy crawled_domain then
        match pyUrlparseHostname url with
        | Except.error _ =>
          addError "IDENTITY_URL_MALFORMED" "Identity url is completely malformed." "$.identity.url" "BLOCKING" r
        | Except.ok h =>
          if payload_host h = crawled_host crawled_domain then r
          else
            subScore 20 (addError "ORIGIN_MISMATCH"
              ("Payload URL domain (" ++ payload_host h ++ ") != crawled domain (" ++ crawled_host crawled_domain ++ ").")
              "$.identity.url" "WARNING" r)
      else r
    else addError "IDENTITY_URL_INVALID" "Identity url MUST be absolute HTTPS URL." "$.identity.url" "BLOCKING" r
  | _ => addError "IDENTITY_URL_INVALID" "Identity url MUST be absolute HTTPS URL." "$.identity.url" "BLOCKING" r

/-- Check 3 of `validate`: the `identity` object, its `name` check and then
its `url` checks, run in the source's statement order. -/
def checkIdentity (payload : List (String × Json)) (crawled_domain : Option String)
    (r : ValidationResult) : ValidationResult :=
  match pyGet payload "identity" with
  | Json.obj identity => checkIdentityUrl identity crawled_domain (checkIdentityName identity r)
  | _ => addError "IDENTITY_MISSING" "Identity object is REQUIRED." "$.identity" "BLOCKING" r

/-- The `for idx, sig in enumerate(signals)` loop of check 4d. -/
def checkSignals (idx : Nat) (signals : List Json) (r : ValidationResult) : ValidationResult :=
  match signals with
  | [] => r
  | sig :: rest =>
    let r1 :=
      match sig with
      | Json.obj m =>
        if hasKey m "type" && hasKey m "url" then r
        else addError "AUTHORITY_SIGNAL_MALFORMED" "All external_signals MUST be objects containing type and url."
          ("$.authority.external_signals[" ++ toString idx ++ "]") "BLOCKING" r
      | _ => addError "AUTHORITY_SIGNAL_MALFORMED" "All external_signals MUST be objects containing type and url."
          ("$.authority.external_signals[" ++ toString idx ++ "]") "BLOCKING" r
    checkSignals (idx + 1) rest r1

/-- Check 4a of `validate`: `authority.verified` must be a boolean. -/
def checkAuthorityVerified (authority : List (String × Json)) (r : ValidationResult) : ValidationResult :=
  match pyGet authority "verified" with
  | Json.bool _ => r
  | _ => addError "AUTHORITY_VERIFIED_INVALID" "Authority verified MUST be boolean." "$.authority.verified" "BLOCKING" r

/-- Check 4b of `validate`: `not isinstance(score, (int, float)) or score < 0
or score > 10` on the Python numeric value of `authority.trust_score`. -/
def checkAuthorityScore (authority : List (String × Json)) (r : ValidationResult) : ValidationResult :=
  if !(pyIsNumber (pyGet authority "trust_score"))
      || ratLtB (pyNumVal (pyGet authority "trust_score")) (ratInt 0)
      || ratLtB (ratInt 10) (pyNumVal (pyGet authority "trust_score")) then
    addError "AUTHORITY_SCORE_INVALID" "Authority trust_score MUST be float between 0.0 and 10.0." "$.authority.trust_score" "BLOCKING" r
  else r

/-- Checks 4c and 4d of `validate`: `authority.external_signals` must be an
array of at most 20 elements, each element an object with `type` and `url`. -/
def checkAuthoritySignals (authority : List (String × Json)) (r : ValidationResult) : ValidationResult :=
  match pyGet authority "external_signals" with
  | Json.arr signals =>
    if signals.length ≤ 20 then checkSignals 0 signals r
    else addError "AUTHORITY_SIGNALS_INVALID" "Authority external_signals MUST be array max 20." "$.authority.external_signals" "BLOCKING" r
  | _ => addError "AUTHORITY_SIGNALS_INVALID" "Authority external_signals MUST be array max 20." "$.authority.external_signals" "BLOCKING" r

/-- Check 4 of `validate`: the `authority` object and its `verified`,
`trust_score` and `external_signals` checks, in the source's order. -/
def checkAuthority (payload : List (String × Json)) (r : ValidationResult) : ValidationResult :=
  match pyGet payload "authority" with
  | Json.obj authority => checkAuthoritySignals authority (checkAuthorityScore authority (checkAuthorityVerified authority r))
  | _ => addError "AUTHORITY_MISSING" "Authority object is REQUIRED." "$.authority" "BLOCKING" r

/-- Check 5a of `validate`: `entities.primary` must be an array of 1 to 10
elements. -/
def checkEntitiesPrimary (entities : List (String × Json)) (r : ValidationResult) : ValidationResult :=
  match pyGet entities "primary" with
  | Json.arr primary =>
    if primary.length = 0 ∨ 10 < primary.length then
      addError "ENTITIES_PRIMARY_INVALID" "Entities primary MUST be array 1-10 elements." "$.entities.primary" "BLOCKING" r
    else r
  | _ => addError "ENTITIES_PRIMARY_INVALID" "Entities primary MUST be array 1-10 elements." "$.entities.primary" "BLOCKING" r

/-- Check 5 of `validate`: the `entities` object and its `primary` array. -/
def checkEntities (payload : List (String × Json)) (r : ValidationResult) : ValidationResult :=
  match pyGet payload "entities" with
  | Json.obj entities => checkEntitiesPrimary entities r
  | _ => addError "ENTITIES_MISSING" "Entities object is REQUIRED." "$.entities" "BLOCKING" r

/-- Check 6a of `validate`: `offer.currency` must be a string whenever
`offer.price` is present and not `None`. -/
def checkOfferCurrency (offer : List (String × Json)) (r : ValidationResult) : ValidationResult :=
  match pyGet offer "price" with
  | Json.null => r
  | _ =>
    match pyGet offer "currency" with
    | Json.str _ => r
    | _ => addError "OFFER_CURRENCY_MISSING" "Offer currency is REQUIRED when price is present." "$.offer.currency" "BLOCKING" r

/-- Check 6 of `validate`: the `offer` object; `currency` is required
(as a string) only when `price` is present and not `None`. -/
def checkOffer (payload : List (String × Json)) (r : ValidationResult) : ValidationResult :=
  match pyGet payload "offer" with
  | Json.obj offer => checkOfferCurrency offer r
  | _ => addError "OFFER_MISSING" "Offer object is REQUIRED." "$.offer" "BLOCKING" r

/-- Check 7a of `validate`: `context.timestamp` must be a string accepted by
`datetime.fromisoformat(timestamp.replace('Z', '+00:00'))` (a non-string
raises before the parse and lands in the same except clause). -/
def checkContextTimestamp (context : List (String × Json)) (r : ValidationResult) : ValidationResult :=
  match pyGet context "timestamp" with
  | Json.str ts =>
    if pyFromIsoformatOk (pyReplace ts "Z" "+00:00") then r
    else addError "CONTEXT_TIMESTAMP_INVALID" "Context timestamp MUST be valid ISO 8601 date." "$.context.timestamp" "BLOCKING" r
  | _ => addError "CONTEXT_TIMESTAMP_INVALID" "Context timestamp MUST be valid ISO 8601 date." "$.context.timestamp" "BLOCKING" r

/-- Check 7b of `validate`: a `context.summary` that is a string shorter than
50 characters draws a warning and a 5 point deduction. -/
def checkContextSummary (context : List (String × Json)) (r : ValidationResult) : ValidationResult :=
  match pyGet context "summary" with
  | Json.str s =>
    if s.length < 50 then
      subScore 5 (addError "CONTEXT_SUMMARY_LENGTH" "Context summary suspiciously short (< 50 chars)." "$.context.summary" "WARNING" r)
    else r
  | _ => r

/-- Check 7 of `validate`: the `context` object, its `timestamp` check and
then its `summary` check, in the source's order. -/
def checkContext (payload : List (String × Json)) (r : ValidationResult) : ValidationResult :=
  match pyGet payload "context" with
  | Json.obj context => checkContextSummary context (checkContextTimestamp context r)
  | _ => addError "CONTEXT_MISSING" "Context object is REQUIRED." "$.context" "BLOCKING" r

/-- Checks 1 to 7 of `validate`, in the source's order. -/
def runChecks (payload : List (String × Json)) (crawled_domain : Option String)
    (r : ValidationResult) : ValidationResult :=
  checkContext payload (checkOffer payload (checkEntities payload (checkAuthority payload
    (checkIdentity payload crawled_domain (checkSemanticType payload (checkProtocol payload r))))))

/-- The source's local `is_enum = sem_type in self.SEMANTIC_TYPES` (Python
`in` on a list of strings is equality against each element, false for any
non-string value such as `None`). -/
def is_enum (payload : List (String × Json)) : Bool :=
  match pyGet payload "semantic_type" with
  | Json.str s => SEMANTIC_TYPES.contains s
  | _ => false

/-- The source's local `has_long_summary = context and
isinstance(context.get('summary'), str) and len(context.get('summary')) >= 50`.
On a truthy non-dict `context` Python would raise in `.get`, but that point
is unreachable (a non-dict `context` has produced the BLOCKING
`CONTEXT_MISSING` finding, so the early return of the compliance algorithm
runs instead); the embedding returns `false` on that dead branch. -/
def has_long_summary (payload : List (String × Json)) : Bool :=
  jsonTruthy (pyGet payload "context") &&
    match pyGet payload "context" with
    | Json.obj cm =>
      (match pyGet cm "summary" with
       | Json.str s => decide (50 ≤ s.length)
       | _ => false)
    | _ => false

/-- The source's local `has_signals = authority and
isinstance(authority.get('external_signals'), list) and
len(authority.get('external_signals')) > 0` (same dead-branch remark as for
`has_long_summary`). -/
def has_signals (payload : List (String × Json)) : Bool :=
  jsonTruthy (pyGet payload "authority") &&
    match pyGet payload "authority" with
    | Json.obj am =>
      (match pyGet am "external_signals" with
       | Json.arr l => decide (0 < l.length)
       | _ => false)
    | _ => false

/-- The source's local `has_origin_warning = any(w['code'] ==
'ORIGIN_MISMATCH' for w in result['warnings'])`. -/
def has_origin_warning (r : ValidationResult) : Bool :=
  r.warnings.any (fun w => w.code == "ORIGIN_MISMATCH")

/-- The source's local `is_https = isinstance(identity, dict) and
isinstance(identity.get('url'), str) and identity.get('url').startswith('https://')`. -/
def is_https (payload : List (String × Json)) : Bool :=
  match pyGet payload "identity" with
  | Json.obj im =>
    (match pyGet im "url" with
     | Json.str u => pyStartsWith u "https://"
     | _ => false)
  | _ => false

/-- The source's local `is_verified = authority and
authority.get('verified') is True` (same dead-branch remark as for
`has_long_summary`; `is True` is identity with the singleton `True`). -/
def is_verified (payload : List (String × Json)) : Bool :=
  jsonTruthy (pyGet payload "authority") &&
    match pyGet payload "authority" with
    | Json.obj am =>
      (match pyGet am "verified" with
       | Json.bool b => b
       | _ => false)
    | _ => false

/-- The source's local `high_trust = authority and
isinstance(authority.get('trust_score'), (int, float)) and
authority.get('trust_score') >= 7.0` (same dead-branch remark). -/
def high_trust (payload : List (String × Json)) : Bool :=
  jsonTruthy (pyGet payload "authority") &&
    match pyGet payload "authority" with
    | Json.obj am => pyIsNumber (pyGet am "trust_score") && ratLeB (ratInt 7) (pyNumVal (pyGet am "trust_score"))
    | _ => false

/-- The compliance level algorithm at the end of `validate`. The gate locals
are re-read from the payload just as the source reuses its local variables
`sem_type`, `identity`, `authority`, `context` (the payload is immutable, so
the values agree). The source mutates `result` in place; each leaf below is
the record the corresponding path leaves behind (`status` and
`compliance_level` are the only fields the gate cascade writes, and
`has_origin_warning` reads the unchanged `warnings`). -/
def resolveCompliance (payload : List (String × Json)) (r : ValidationResult) : ValidationResult :=
  if r.blocking_errors ≠ [] then
    { r with status := "FAIL", compliance_level := "NONE", score := 0 }
  else
    if is_enum payload && has_long_summary payload && has_signals payload then
      if is_https payload && is_verified payload && high_trust payload && !has_origin_warning r then
        { r with status := "PASS", compliance_level := "VERIFIED-L1" }
      else { r with status := "PASS", compliance_level := "PLUS" }
    else { r with status := "PASS", compliance_level := "CORE" }

/-- `NcpValidator.validate(payload, crawled_domain)`: a non-dict payload gets
the single `PAYLOAD_INVALID` finding and the result is returned at once
(score untouched); otherwise the seven field checks run and the compliance
level algorithm finishes the result. -/
def validate (payload : Json) (crawled_domain : Option String) : ValidationResult :=
  match payload with
  | Json.obj fields => resolveCompliance fields (runChecks fields crawled_domain initResult)
  | _ => addError "PAYLOAD_INVALID" "Input must be a valid JSON dictionary." "$" "BLOCKING" initResult


/-! ### Concrete scenario payloads -/

/-- A 67-character summary for the full scenarios of spec §8. -/
def scenarioSummary : String := "This product summary is definitely long enough to satisfy the rule."

/-- The fields of the fully valid VERIFIED-L1 payload of the spec's §8
scenario. -/
def fullPayloadFields : List (String × Json) := [
  ("protocol", Json.str "NCP/1.0"),
  ("semantic_type", Json.str "product"),
  ("identity", Json.obj [("name", Json.str "Acme Corp"), ("url", Json.str "https://acme.com")]),
  ("authority", Json.obj [
    ("verified", Json.bool true),
    ("trust_score", Json.num ratHalf17),
    ("external_signals", Json.arr [Json.obj [("type", Json.str "review"), ("url", Json.str "https://x.com")]])]),
  ("entities", Json.obj [("primary", Json.arr [Json.str "Acme"])]),
  ("offer", Json.obj []),
  ("context", Json.obj [("timestamp", Json.str "2024-01-01T00:00:00Z"), ("summary", Json.str scenarioSummary)])]

/-- The fully valid VERIFIED-L1 payload of the spec's §8 scenario. -/
def fullPayload : Json := Json.obj fullPayloadFields

/-- The origin mismatch scenario payload of spec §8: as `fullPayload` but
with `identity.url = "https://www.example.com/page"`. -/
def originPayload : Json := Json.obj [
  ("protocol", Json.str "NCP/1.0"),
  ("semantic_type", Json.str "product"),
  ("identity", Json.obj [("name", Json.str "Acme Corp"), ("url", Json.str "https://www.example.com/page")]),
  ("authority", Json.obj [
    ("verified", Json.bool true),
    ("trust_score", Json.num ratHalf17),
    ("external_signals", Json.arr [Json.obj [("type", Json.str "review"), ("url", Json.str "https://x.com")]])]),
  ("entities", Json.obj [("primary", Json.arr [Json.str "Acme"])]),
  ("offer", Json.obj []),
  ("context", Json.obj [("timestamp", Json.str "2024-01-01T00:00:00Z"), ("summary", Json.str scenarioSummary)])]

/-- As `fullPayload` but with `identity.url = "https://x.www.y"`, whose host
contains a non-leading `"www."`. -/
def innerWwwPayload : Json := Json.obj [
  ("protocol", Json.str "NCP/1.0"),
  ("semantic_type", Json.str "product"),
  ("identity", Json.obj [("name", Json.str "Acme Corp"), ("url", Json.str "https://x.www.y")]),
  ("authority", Json.obj [
    ("verified", Json.bool true),
    ("trust_score", Json.num ratHalf17),
    ("external_signals", Json.arr [Json.obj [("type", Json.str "review"), ("url", Json.str "https://x.com")]])]),
  ("entities", Json.obj [("primary", Json.arr [Json.str "Acme"])]),
  ("offer", Json.obj []),
  ("context", Json.obj [("timestamp", Json.str "2024-01-01T00:00:00Z"), ("summary", Json.str scenarioSummary)])]

/-- A payload whose `identity.url` starts with `"https://"` but makes
`urllib.parse.urlparse` raise (`"https://["` has a `[` and no `]`). -/
def malformedUrlPayload : Json :=
  Json.obj [("identity", Json.obj [("name", Json.str "Acme Corp"), ("url", Json.str "https://[")])]

/-- A minimal payload whose `identity.url` host differs from the crawled
domain `"example.com"`. -/
def mismatchPayload : List (String × Json) :=
  [("identity", Json.obj [("url", Json.str "https://other.com")])]

/-! ### The shape of one check's effect

Every check of the Field Checker reads only the payload and appends findings
to the result's buckets (and lowers the score); it never reads or rewrites
what is already accumulated. `applyDelta` is that shape, and the lemmas
below put each check into it. -/

/-- Append `b`, `w`, `c` to the three buckets and subtract `d` from the
score. -/
def applyDelta (b w c : List Finding) (d : Int) (r : ValidationResult) : ValidationResult :=
  { r with blocking_errors := r.blocking_errors ++ b,
           warnings := r.warnings ++ w,
           recommendations := r.recommendations ++ c,
           score := r.score - d }

/-- The finding `checkSignals` emits for a malformed element at index `idx`. -/
def signalFinding (idx : Nat) : Finding :=
  { code := "AUTHORITY_SIGNAL_MALFORMED", severity := "BLOCKING",
    message := "All external_signals MUST be objects containing type and url.",
    path := "$.authority.external_signals[" ++ toString idx ++ "]" }

theorem applyDelta_zero (r : ValidationResult) : applyDelta [] [] [] 0 r = r := by
  cases r; simp [applyDelta]

theorem applyDelta_comp (b1 w1 c1 : List Finding) (d1 : Int) (b2 w2 c2 : List Finding) (d2 : Int)
    (r : ValidationResult) :
    applyDelta b2 w2 c2 d2 (applyDelta b1 w1 c1 d1 r)
      = applyDelta (b1 ++ b2) (w1 ++ w2) (c1 ++ c2) (d1 + d2) r := by
  cases r; simp [applyDelta, sub_sub]

theorem addError_BLOCKING (c m p : String) (r : ValidationResult) :
    addError c m p "BLOCKING" r
      = applyDelta [{ code := c, severity := "BLOCKING", message := m, path := p }] [] [] 0 r := by
  cases r; simp [addError, applyDelta]

theorem addError_WARNING_sub (c m p : String) (n : Int) (r : ValidationResult) :
    subScore n (addError c m p "WARNING" r)
      = applyDelta [] [{ code := c, severity := "WARNING", message := m, path := p }] [] n r := by
  cases r; simp [addError, subScore, applyDelta]

theorem checkProtocol_delta (kvs : List (String × Json)) :
    ∃ b, ∀ r, checkProtocol kvs r = applyDelta b [] [] 0 r := by
  unfold checkProtocol
  rcases pyGet kvs "protocol" with _ | bv | q | s | l | o
  case str =>
    by_cases h : s = "NCP/1.0"
    · exact ⟨[], fun r => by simp only [if_pos h]; exact (applyDelta_zero r).symm⟩
    · exact ⟨_, fun r => by simp only [if_neg h]; exact addError_BLOCKING _ _ _ r⟩
  all_goals exact ⟨_, fun r => addError_BLOCKING _ _ _ r⟩

theorem checkSemanticType_delta (kvs : List (String × Json)) :
    ∃ b w d, (∀ r, checkSemanticType kvs r = applyDelta b w [] d r) ∧
      ∀ g ∈ w, g.code = "SEMANTIC_TYPE_UNKNOWN" := by
  unfold checkSemanticType
  rcases pyGet kvs "semantic_type" with _ | bv | q | s | l | o
  case str =>
    by_cases h : SEMANTIC_TYPES.contains s = true
    · exact ⟨[], [], 0, fun r => by simp only [if_pos h]; exact (applyDelta_zero r).symm, by simp⟩
    · exact ⟨[], _, 10, fun r => by simp only [if_neg h]; exact addError_WARNING_sub _ _ _ _ r, by simp⟩
  all_goals exact ⟨_, [], 0, fun r => addError_BLOCKING _ _ _ r, by simp⟩

theorem checkIdentityName_delta (identity : List (String × Json)) :
    ∃ b, ∀ r, checkIdentityName identity r = applyDelta b [] [] 0 r := by
  unfold checkIdentityName
  rcases pyGet identity "name" with _ | bv | q | s | l | o
  case str =>
    by_cases h : 3 ≤ s.length ∧ s.length ≤ 120
    · exact ⟨[], fun r => by simp only [if_pos h]; exact (applyDelta_zero r).symm⟩
    · exact ⟨_, fun r => by simp only [if_neg h]; exact addError_BLOCKING _ _ _ r⟩
  all_goals exact ⟨_, fun r => addError_BLOCKING _ _ _ r⟩

theorem checkIdentityUrl_delta (identity : List (String × Json)) (cd : Option String) :
    ∃ b w d, (∀ r, checkIdentityUrl identity cd r = applyDelta b w [] d r) ∧
      ∀ g ∈ w, g.code = "ORIGIN_MISMATCH" := by
  unfold checkIdentityUrl
  rcases pyGet identity "url" with _ | bv | q | u | l | o
  case str =>
    by_cases h1 : pyStartsWith u "https://" = true
    · simp only [h1, if_true]
      by_cases h2 : optStrTruthy cd = true
      · simp only [h2, if_true]
        rcases pyUrlparseHostname u with e | hopt
        · exact ⟨_, [], 0, fun r => addError_BLOCKING _ _ _ r, by simp⟩
        · by_cases h3 : payload_host hopt = crawled_host cd
          · exact ⟨[], [], 0, fun r => by simp only [if_pos h3]; exact (applyDelta_zero r).symm, by simp⟩
          · exact ⟨[], _, 20, fun r => by simp only [if_neg h3]; exact addError_WARNING_sub _ _ _ _ r, by simp⟩
      · simp only [h2]
        exact ⟨[], [], 0, fun r => by simp only [Bool.false_eq_true, if_false]; exact (applyDelta_zero r).symm, by simp⟩
    · simp only [h1]
      exact ⟨_, [], 0, fun r => by simp only [Bool.false_eq_true, if_false]; exact addError_BLOCKING _ _ _ r, by simp⟩
  all_goals exact ⟨_, [], 0, fun r => addError_BLOCKING _ _ _ r, by simp⟩


theorem checkIdentity_delta (kvs : List (String × Json)) (cd : Option String) :
    ∃ b w d, (∀ r, checkIdentity kvs cd r = applyDelta b w [] d r) ∧
      ∀ g ∈ w, g.code = "ORIGIN_MISMATCH" := by
  unfold checkIdentity
  rcases pyGet kvs "identity" with _ | bv | q | s | l | idm
  case obj =>
    obtain ⟨b1, h1⟩ := checkIdentityName_delta idm
    obtain ⟨b2, w2, d2, h2, hw2⟩ := checkIdentityUrl_delta idm cd
    refine ⟨b1 ++ b2, w2, d2, fun r => ?_, hw2⟩
    show checkIdentityUrl idm cd (checkIdentityName idm r) = applyDelta (b1 ++ b2) w2 [] d2 r
    rw [h1, h2, applyDelta_comp]
    simp
  all_goals exact ⟨_, [], 0, fun r => addError_BLOCKING _ _ _ r, by simp⟩


theorem checkSignals_delta (idx : Nat) (sigs : List Json) :
    ∃ b, ∀ r, checkSignals idx sigs r = applyDelta b [] [] 0 r := by
  induction sigs generalizing idx with
  | nil => exact ⟨[], fun r => by unfold checkSignals; exact (applyDelta_zero r).symm⟩
  | cons sig rest ih =>
    obtain ⟨btail, htail⟩ := ih (idx + 1)
    unfold checkSignals
    rcases sig with _ | bv | q | s | l | m
    case obj =>
      by_cases h : (hasKey m "type" && hasKey m "url") = true
      · exact ⟨btail, fun r => by simp only [h, if_true]; exact htail r⟩
      · refine ⟨signalFinding idx :: btail, fun r => ?_⟩
        simp only [if_neg h]
        rw [htail, addError_BLOCKING, applyDelta_comp]
        simp [signalFinding]
    all_goals
      refine ⟨signalFinding idx :: btail, fun r => ?_⟩
      refine Eq.trans (congrArg (checkSignals (idx + 1) rest) (addError_BLOCKING _ _ _ r)) ?_
      rw [htail, applyDelta_comp]
      simp [signalFinding]


theorem checkAuthorityVerified_delta (am : List (String × Json)) :
    ∃ b, ∀ r, checkAuthorityVerified am r = applyDelta b [] [] 0 r := by
  unfold checkAuthorityVerified
  rcases pyGet am "verified" with _ | bv | q | s | l | o
  case bool => exact ⟨[], fun r => (applyDelta_zero r).symm⟩
  all_goals exact ⟨_, fun r => addError_BLOCKING _ _ _ r⟩

theorem checkAuthorityScore_delta (am : List (String × Json)) :
    ∃ b, ∀ r, checkAuthorityScore am r = applyDelta b [] [] 0 r := by
  unfold checkAuthorityScore
  by_cases h : (!(pyIsNumber (pyGet am "trust_score"))
      || ratLtB (pyNumVal (pyGet am "trust_score")) (ratInt 0)
      || ratLtB (ratInt 10) (pyNumVal (pyGet am "trust_score"))) = true
  · exact ⟨_, fun r => by simp only [if_pos h]; exact addError_BLOCKING _ _ _ r⟩
  · exact ⟨[], fun r => by simp only [if_neg h]; exact (applyDelta_zero r).symm⟩

theorem checkAuthoritySignals_delta (am : List (String × Json)) :
    ∃ b, ∀ r, checkAuthoritySignals am r = applyDelta b [] [] 0 r := by
  unfold checkAuthoritySignals
  rcases pyGet am "external_signals" with _ | bv | q | s | sigs | o
  case arr =>
    by_cases h : sigs.length ≤ 20
    · obtain ⟨b, hb⟩ := checkSignals_delta 0 sigs
      exact ⟨b, fun r => by simp only [if_pos h]; exact hb r⟩
    · exact ⟨_, fun r => by simp only [if_neg h]; exact addError_BLOCKING _ _ _ r⟩
  all_goals exact ⟨_, fun r => addError_BLOCKING _ _ _ r⟩

theorem checkAuthority_delta (kvs : List (String × Json)) :
    ∃ b, ∀ r, checkAuthority kvs r = applyDelta b [] [] 0 r := by
  unfold checkAuthority
  rcases pyGet kvs "authority" with _ | bv | q | s | l | am
  case obj =>
    obtain ⟨b1, h1⟩ := checkAuthorityVerified_delta am
    obtain ⟨b2, h2⟩ := checkAuthorityScore_delta am
    obtain ⟨b3, h3⟩ := checkAuthoritySignals_delta am
    refine ⟨b1 ++ b2 ++ b3, fun r => ?_⟩
    show checkAuthoritySignals am (checkAuthorityScore am (checkAuthorityVerified am r))
      = applyDelta (b1 ++ b2 ++ b3) [] [] 0 r
    rw [h1, h2, applyDelta_comp, h3, applyDelta_comp]
    simp
  all_goals exact ⟨_, fun r => addError_BLOCKING _ _ _ r⟩

theorem checkEntitiesPrimary_delta (em : List (String × Json)) :
    ∃ b, ∀ r, checkEntitiesPrimary em r = applyDelta b [] [] 0 r := by
  unfold checkEntitiesPrimary
  rcases pyGet em "primary" with _ | bv | q | s | pl | o
  case arr =>
    by_cases h : pl.length = 0 ∨ 10 < pl.length
    · exact ⟨_, fun r => by simp only [if_pos h]; exact addError_BLOCKING _ _ _ r⟩
    · exact ⟨[], fun r => by simp only [if_neg h]; exact (applyDelta_zero r).symm⟩
  all_goals exact ⟨_, fun r => addError_BLOCKING _ _ _ r⟩

theorem checkEntities_delta (kvs : List (String × Json)) :
    ∃ b, ∀ r, checkEntities kvs r = applyDelta b [] [] 0 r := by
  unfold checkEntities
  rcases pyGet kvs "entities" with _ | bv | q | s | l | em
  case obj => exact checkEntitiesPrimary_delta em
  all_goals exact ⟨_, fun r => addError_BLOCKING _ _ _ r⟩

theorem checkOfferCurrency_delta (om : List (String × Json)) :
    ∃ b, ∀ r, checkOfferCurrency om r = applyDelta b [] [] 0 r := by
  unfold checkOfferCurrency
  rcases pyGet om "price" with _ | bv | q | s | l | o
  case null => exact ⟨[], fun r => (applyDelta_zero r).symm⟩
  all_goals {
    rcases pyGet om "currency" with _ | bv2 | q2 | s2 | l2 | o2
    case str => exact ⟨[], fun r => (applyDelta_zero r).symm⟩
    all_goals exact ⟨_, fun r => addError_BLOCKING _ _ _ r⟩
  }

theorem checkOffer_delta (kvs : List (String × Json)) :
    ∃ b, ∀ r, checkOffer kvs r = applyDelta b [] [] 0 r := by
  unfold checkOffer
  rcases pyGet kvs "offer" with _ | bv | q | s | l | om
  case obj => exact checkOfferCurrency_delta om
  all_goals exact ⟨_, fun r => addError_BLOCKING _ _ _ r⟩

theorem checkContextTimestamp_delta (cm : List (String × Json)) :
    ∃ b, ∀ r, checkContextTimestamp cm r = applyDelta b [] [] 0 r := by
  unfold checkContextTimestamp
  rcases pyGet cm "timestamp" with _ | bv | q | ts | l | o
  case str =>
    by_cases h : pyFromIsoformatOk (pyReplace ts "Z" "+00:00") = true
    · exact ⟨[], fun r => by simp only [if_pos h]; exact (applyDelta_zero r).symm⟩
    · exact ⟨_, fun r => by simp only [if_neg h]; exact addError_BLOCKING _ _ _ r⟩
  all_goals exact ⟨_, fun r => addError_BLOCKING _ _ _ r⟩

theorem checkContextSummary_delta (cm : List (String × Json)) :
    ∃ w d, (∀ r, checkContextSummary cm r = applyDelta [] w [] d r) ∧
      ∀ g ∈ w, g.code = "CONTEXT_SUMMARY_LENGTH" := by
  unfold checkContextSummary
  rcases pyGet cm "summary" with _ | bv | q | s | l | o
  case str =>
    by_cases h : s.length < 50
    · exact ⟨_, 5, fun r => by simp only [if_pos h]; exact addError_WARNING_sub _ _ _ _ r, by simp⟩
    · exact ⟨[], 0, fun r => by simp only [if_neg h]; exact (applyDelta_zero r).symm, by simp⟩
  all_goals exact ⟨[], 0, fun r => (applyDelta_zero r).symm, by simp⟩

theorem checkContext_delta (kvs : List (String × Json)) :
    ∃ b w d, (∀ r, checkContext kvs r = applyDelta b w [] d r) ∧
      ∀ g ∈ w, g.code = "CONTEXT_SUMMARY_LENGTH" := by
  unfold checkContext
  rcases pyGet kvs "context" with _ | bv | q | s | l | cm
  case obj =>
    obtain ⟨b1, h1⟩ := checkContextTimestamp_delta cm
    obtain ⟨w2, d2, h2, hw2⟩ := checkContextSummary_delta cm
    refine ⟨b1, w2, d2, fun r => ?_, hw2⟩
    show checkContextSummary cm (checkContextTimestamp cm r) = applyDelta b1 w2 [] d2 r
    rw [h1, h2, applyDelta_comp]
    simp
  all_goals exact ⟨_, [], 0, fun r => addError_BLOCKING _ _ _ r, by simp⟩

/-- The whole Field Checker only appends findings determined by the payload
(and lowers the score); the warnings come only from checks 2b, 3c and 7b. -/
theorem runChecks_delta (kvs : List (String × Json)) (cd : Option String) :
    ∃ b w d, ∀ r, runChecks kvs cd r = applyDelta b w [] d r := by
  obtain ⟨b1, h1⟩ := checkProtocol_delta kvs
  obtain ⟨b2, w2, d2, h2, _⟩ := checkSemanticType_delta kvs
  obtain ⟨b3, w3, d3, h3, _⟩ := checkIdentity_delta kvs cd
  obtain ⟨b4, h4⟩ := checkAuthority_delta kvs
  obtain ⟨b5, h5⟩ := checkEntities_delta kvs
  obtain ⟨b6, h6⟩ := checkOffer_delta kvs
  obtain ⟨b7, w7, d7, h7, _⟩ := checkContext_delta kvs
  refine ⟨b1 ++ b2 ++ b3 ++ b4 ++ b5 ++ b6 ++ b7, w2 ++ w3 ++ w7, d2 + d3 + d7, fun r => ?_⟩
  unfold runChecks
  rw [h1, h2, applyDelta_comp, h3, applyDelta_comp, h4, applyDelta_comp, h5, applyDelta_comp,
    h6, applyDelta_comp, h7, applyDelta_comp]
  simp [List.append_assoc]

theorem resolveCompliance_nonempty (kvs : List (String × Json)) (r : ValidationResult)
    (h : r.blocking_errors ≠ []) :
    resolveCompliance kvs r = { r with status := "FAIL", compliance_level := "NONE", score := 0 } := by
  unfold resolveCompliance
  rw [if_pos h]

theorem resolveCompliance_fields (kvs : List (String × Json)) (r : ValidationResult) :
    (resolveCompliance kvs r).ncp_version = r.ncp_version ∧
    (resolveCompliance kvs r).blocking_errors = r.blocking_errors ∧
    (resolveCompliance kvs r).warnings = r.warnings ∧
    (resolveCompliance kvs r).recommendations = r.recommendations := by
  unfold resolveCompliance
  repeat' split
  all_goals simp

theorem resolveCompliance_status (kvs : List (String × Json)) (r : ValidationResult) :
    (resolveCompliance kvs r).status = if r.blocking_errors = [] then "PASS" else "FAIL" := by
  unfold resolveCompliance
  repeat' split
  all_goals simp_all

theorem resolveCompliance_score (kvs : List (String × Json)) (r : ValidationResult) :
    (resolveCompliance kvs r).score = if r.blocking_errors = [] then r.score else 0 := by
  unfold resolveCompliance
  repeat' split
  all_goals simp_all

theorem resolveCompliance_level_cases (kvs : List (String × Json)) (r : ValidationResult) :
    (resolveCompliance kvs r).compliance_level = "NONE" ∨
    (resolveCompliance kvs r).compliance_level = "CORE" ∨
    (resolveCompliance kvs r).compliance_level = "PLUS" ∨
    (resolveCompliance kvs r).compliance_level = "VERIFIED-L1" := by
  unfold resolveCompliance
  repeat' split
  all_goals simp

theorem is_enum_iff (kvs : List (String × Json)) :
    is_enum kvs = true ↔
      ∃ s, pyGet kvs "semantic_type" = Json.str s ∧ SEMANTIC_TYPES.contains s = true := by
  unfold is_enum
  cases h : pyGet kvs "semantic_type" <;> simp [h]

theorem has_long_summary_iff (kvs : List (String × Json)) :
    has_long_summary kvs = true ↔
      ∃ cm s, pyGet kvs "context" = Json.obj cm ∧ pyGet cm "summary" = Json.str s ∧ 50 ≤ s.length := by
  unfold has_long_summary
  cases h : pyGet kvs "context" <;> simp [h, jsonTruthy]
  rename_i cm
  cases h2 : pyGet cm "summary" <;> simp [h2]
  intro h50 hcm
  subst hcm
  simp [pyGet] at h2

theorem has_signals_iff (kvs : List (String × Json)) :
    has_signals kvs = true ↔
      ∃ am l, pyGet kvs "authority" = Json.obj am ∧ pyGet am "external_signals" = Json.arr l ∧ l ≠ [] := by
  unfold has_signals
  cases h : pyGet kvs "authority" <;> simp [h, jsonTruthy]
  rename_i am
  cases h2 : pyGet am "external_signals" <;> simp [h2]
  rename_i l
  constructor
  · rintro ⟨-, hs⟩
    exact List.length_pos.mp hs
  · intro hs
    refine ⟨?_, List.length_pos.mpr hs⟩
    cases am with
    | nil => simp [pyGet] at h2
    | cons a t => simp

/-- Check 3c on a truthy `crawled_domain` whose stripped host differs from
the stripped url host: exactly the `ORIGIN_MISMATCH` warning plus the 20
point deduction. -/
theorem checkIdentityUrl_mismatch (im : List (String × Json)) (dm u : String) (oh : Option String)
    (hurl : pyGet im "url" = Json.str u)
    (hhttps : pyStartsWith u "https://" = true)
    (hdm : dm ≠ "")
    (hparse : pyUrlparseHostname u = Except.ok oh)
    (hne : payload_host oh ≠ crawled_host (some dm)) :
    ∀ r, checkIdentityUrl im (some dm) r = applyDelta []
      [{ code := "ORIGIN_MISMATCH", severity := "WARNING",
         message := "Payload URL domain (" ++ payload_host oh ++ ") != crawled domain (" ++ crawled_host (some dm) ++ ").",
         path := "$.identity.url" }] [] 20 r := by
  intro r
  unfold checkIdentityUrl
  rw [hurl]
  simp [hhttps, hparse, optStrTruthy, hdm, hne]
  exact addError_WARNING_sub _ _ _ _ r

/-- Check 3c is skipped when no `crawled_domain` is supplied and the url is
a valid HTTPS string. -/
theorem checkIdentityUrl_none (im : List (String × Json)) (u : String)
    (hurl : pyGet im "url" = Json.str u)
    (hhttps : pyStartsWith u "https://" = true) :
    ∀ r, checkIdentityUrl im none r = r := by
  intro r
  unfold checkIdentityUrl
  rw [hurl]
  simp [hhttps, optStrTruthy]

/-- An empty `crawled_domain` string is falsy in Python, so check 3c behaves
exactly as with no `crawled_domain` at all. -/
theorem checkIdentityUrl_empty (im : List (String × Json)) (r : ValidationResult) :
    checkIdentityUrl im (some "") r = checkIdentityUrl im none r := by
  unfold checkIdentityUrl
  rfl

theorem checkIdentity_empty (kvs : List (String × Json)) (r : ValidationResult) :
    checkIdentity kvs (some "") r = checkIdentity kvs none r := by
  unfold checkIdentity
  simp only [checkIdentityUrl_empty]

theorem runChecks_empty (kvs : List (String × Json)) (r : ValidationResult) :
    runChecks kvs (some "") r = runChecks kvs none r := by
  unfold runChecks
  rw [checkIdentity_empty]

theorem applyDelta_blocking (b w c : List Finding) (d : Int) (r : ValidationResult) :
    (applyDelta b w c d r).blocking_errors = r.blocking_errors ++ b := rfl

theorem applyDelta_warnings (b w c : List Finding) (d : Int) (r : ValidationResult) :
    (applyDelta b w c d r).warnings = r.warnings ++ w := rfl

theorem applyDelta_score (b w c : List Finding) (d : Int) (r : ValidationResult) :
    (applyDelta b w c d r).score = r.score - d := rfl

theorem applyDelta_ncp (b w c : List Finding) (d : Int) (r : ValidationResult) :
    (applyDelta b w c d r).ncp_version = r.ncp_version := rfl

/-! ### The claims -/

/-- Claim C1 (code bug): for a non-object payload the code does produce
exactly one finding, `PAYLOAD_INVALID`, BLOCKING, with status FAIL and no
further checks run — but the early return skips the score clamp of the
compliance algorithm, so the returned score is 100, not the 0 the spec
states. This theorem evaluates `validate(null)` in full. -/
theorem claim1_nonobject_payload_bug :
    validate Json.null none =
      { ncp_version := "1.0", status := "FAIL", compliance_level := "NONE", score := 100,
        blocking_errors := [
          { code := "PAYLOAD_INVALID", severity := "BLOCKING",
            message := "Input must be a valid JSON dictionary.", path := "$" }],
        warnings := [], recommendations := [] } ∧
    (validate Json.null none).score ≠ 0 := by
  constructor
  · rfl
  · decide

/-- Claim C2 (code bug): `validate([1,2,3])` has a non-empty
`blocking_errors` yet score 100 — the early return for non-object payloads
skips the clamp to 0, so "`score == 0` iff `blocking_errors` non-empty"
fails on the code for every non-object payload. -/
theorem claim2_score_iff_blocking_bug :
    (validate (Json.arr [Json.num (ratInt 1), Json.num (ratInt 2), Json.num (ratInt 3)]) none).blocking_errors ≠ [] ∧
    (validate (Json.arr [Json.num (ratInt 1), Json.num (ratInt 2), Json.num (ratInt 3)]) none).score = 100 := by
  constructor
  · decide
  · rfl

/-- Claim C3 (counterexample): in the spec's origin mismatch scenario the
stripped hosts are both `"example.com"`, so the code yields NO
`ORIGIN_MISMATCH` warning, score 100 (not reduced by 20) and compliance
level VERIFIED-L1 (not "at most PLUS"). -/
theorem claim3_counterexample :
    (validate originPayload (some "example.com")).warnings = [] ∧
    (validate originPayload (some "example.com")).score = 100 ∧
    (validate originPayload (some "example.com")).compliance_level = "VERIFIED-L1" := by
  refine ⟨rfl, rfl, rfl⟩

/-- Claim C3 (amended): for the §8 origin scenario payload
(`identity.url = "https://www.example.com/page"`, `crawled_domain =
"example.com"`, all other fields valid) the parsed host is
`"www.example.com"`, both hosts strip to `"example.com"` under the source's
`replace('www.', '')`, and the result is PASS with score 100, no findings at
all, and compliance level VERIFIED-L1. -/
theorem claim3_amended_origin_match :
    pyUrlparseHostname "https://www.example.com/page" = Except.ok (some "www.example.com") ∧
    payload_host (some "www.example.com") = crawled_host (some "example.com") ∧
    validate originPayload (some "example.com") =
      { ncp_version := "1.0", status := "PASS", compliance_level := "VERIFIED-L1", score := 100,
        blocking_errors := [], warnings := [], recommendations := [] } := by
  refine ⟨rfl, rfl, rfl⟩

/-- Claim C8: `validate({})` returns exactly the seven BLOCKING findings for
protocol, semantic_type, identity, authority, entities, offer and context,
in that order, with status FAIL, compliance level NONE and score 0. -/
theorem claim8_empty_object :
    validate (Json.obj []) none =
      { ncp_version := "1.0", status := "FAIL", compliance_level := "NONE", score := 0,
        blocking_errors := [
          { code := "PROTOCOL_INVALID", severity := "BLOCKING",
            message := "protocol MUST be exact string \"NCP/1.0\".", path := "$.protocol" },
          { code := "SEMANTIC_TYPE_MISSING", severity := "BLOCKING",
            message := "semantic_type MUST be a string.", path := "$.semantic_type" },
          { code := "IDENTITY_MISSING", severity := "BLOCKING",
            message := "Identity object is REQUIRED.", path := "$.identity" },
          { code := "AUTHORITY_MISSING", severity := "BLOCKING",
            message := "Authority object is REQUIRED.", path := "$.authority" },
          { code := "ENTITIES_MISSING", severity := "BLOCKING",
            message := "Entities object is REQUIRED.", path := "$.entities" },
          { code := "OFFER_MISSING", severity := "BLOCKING",
            message := "Offer object is REQUIRED.", path := "$.offer" },
          { code := "CONTEXT_MISSING", severity := "BLOCKING",
            message := "Context object is REQUIRED.", path := "$.context" }],
        warnings := [], recommendations := [] } := by
  rfl

/-- Claim C9: the full §8 scenario payload (protocol `"NCP/1.0"`, semantic
type `"product"`, valid identity with HTTPS url matching the crawled domain
`"acme.com"`, verified authority with trust score 8.5 and one well-formed
external signal, one primary entity, empty offer, valid timestamp and a
60+ character summary) validates to PASS, score 100, VERIFIED-L1, with all
three finding lists empty. -/
theorem claim9_full_verified_scenario :
    60 ≤ scenarioSummary.length ∧
    validate fullPayload (some "acme.com") =
      { ncp_version := "1.0", status := "PASS", compliance_level := "VERIFIED-L1", score := 100,
        blocking_errors := [], warnings := [], recommendations := [] } := by
  refine ⟨by decide, rfl⟩

/-- Claim C10: an empty-string `crawled_domain` is falsy in Python, so
`validate(payload, "")` is exactly `validate(payload, None)` for every
payload — check 3c is disabled and no `ORIGIN_MISMATCH` finding or
deduction can occur. -/
theorem claim10_empty_crawled_domain (p : Json) :
    validate p (some "") = validate p none := by
  cases p
  case obj kvs =>
    show resolveCompliance kvs (runChecks kvs (some "") initResult)
      = resolveCompliance kvs (runChecks kvs none initResult)
    rw [runChecks_empty]
  all_goals rfl

/-- Claim C5: `validate` is total — for every payload shape (null, array,
primitive or object) and every optional `crawled_domain` it returns a
complete `ValidationResult` whose `ncp_version` is `"1.0"`, whose `status`
is PASS or FAIL and whose `compliance_level` is one of the four tiers (the
three finding lists and the score are the remaining fields of the always
constructed record); and a `urlparse` failure (here `"https://["`, which
raises `ValueError: Invalid IPv6 URL`) is caught locally and converted into
a BLOCKING `IDENTITY_URL_MALFORMED` finding. -/
theorem claim5_total_and_url_failure_caught :
    (∀ (p : Json) (cd : Option String),
      (validate p cd).ncp_version = "1.0" ∧
      ((validate p cd).status = "PASS" ∨ (validate p cd).status = "FAIL") ∧
      ((validate p cd).compliance_level = "NONE" ∨ (validate p cd).compliance_level = "CORE" ∨
        (validate p cd).compliance_level = "PLUS" ∨ (validate p cd).compliance_level = "VERIFIED-L1")) ∧
    pyUrlparseHostname "https://[" = Except.error () ∧
    (validate malformedUrlPayload (some "x.com")).blocking_errors.any
      (fun f => f.code == "IDENTITY_URL_MALFORMED") = true := by
  refine ⟨fun p cd => ?_, rfl, rfl⟩
  cases p
  case obj kvs =>
    obtain ⟨b, w, d, hrc⟩ := runChecks_delta kvs cd
    have hv : validate (Json.obj kvs) cd = resolveCompliance kvs (runChecks kvs cd initResult) := rfl
    rw [hv, hrc]
    obtain ⟨hncp, -, -, -⟩ := resolveCompliance_fields kvs (applyDelta b w [] d initResult)
    refine ⟨by rw [hncp, applyDelta_ncp]; rfl, ?_, resolveCompliance_level_cases _ _⟩
    rw [resolveCompliance_status]
    by_cases hb : (applyDelta b w [] d initResult).blocking_errors = []
    · rw [if_pos hb]
      exact Or.inl rfl
    · rw [if_neg hb]
      exact Or.inr rfl
  all_goals exact ⟨rfl, Or.inr rfl, Or.inl rfl⟩

/-- Claim C6: tier monotonicity. If the final compliance level is
VERIFIED-L1 then the payload is an object whose raw fields satisfy the PLUS
gate (semantic type in the official enum, a context summary string of at
least 50 characters, a non-empty external signals array); and a level of
PLUS or VERIFIED-L1 implies empty `blocking_errors` and status PASS — the
resolver only promotes through CORE and PLUS in order. -/
theorem claim6_tier_monotonicity (p : Json) (cd : Option String) :
    ((validate p cd).compliance_level = "VERIFIED-L1" →
      ∃ kvs, p = Json.obj kvs ∧
        (∃ s, pyGet kvs "semantic_type" = Json.str s ∧ SEMANTIC_TYPES.contains s = true) ∧
        (∃ cm s, pyGet kvs "context" = Json.obj cm ∧ pyGet cm "summary" = Json.str s ∧ 50 ≤ s.length) ∧
        (∃ am l, pyGet kvs "authority" = Json.obj am ∧ pyGet am "external_signals" = Json.arr l ∧ l ≠ [])) ∧
    (((validate p cd).compliance_level = "PLUS" ∨ (validate p cd).compliance_level = "VERIFIED-L1") →
      (validate p cd).blocking_errors = [] ∧ (validate p cd).status = "PASS") := by
  cases p
  case obj kvs =>
    have hv : validate (Json.obj kvs) cd = resolveCompliance kvs (runChecks kvs cd initResult) := rfl
    by_cases hb : (runChecks kvs cd initResult).blocking_errors = []
    · constructor
      · intro hver
        rw [hv] at hver
        unfold resolveCompliance at hver
        rw [if_neg (by simp [hb])] at hver
        split at hver
        · split at hver
          · rename_i hgate _
            rw [Bool.and_eq_true, Bool.and_eq_true] at hgate
            obtain ⟨⟨he, hl⟩, hs⟩ := hgate
            exact ⟨kvs, rfl, (is_enum_iff kvs).mp he, (has_long_summary_iff kvs).mp hl,
              (has_signals_iff kvs).mp hs⟩
          · simp at hver
        · simp at hver
      · intro _
        rw [hv]
        obtain ⟨-, hbl, -, -⟩ := resolveCompliance_fields kvs (runChecks kvs cd initResult)
        rw [resolveCompliance_status, if_pos hb]
        exact ⟨by rw [hbl]; exact hb, rfl⟩
    · have hres := resolveCompliance_nonempty kvs (runChecks kvs cd initResult) hb
      rw [hv, hres]
      constructor
      · intro hver
        simp at hver
      · intro hor
        rcases hor with h | h <;> simp at h
  all_goals {
    constructor
    · intro hver
      simp [validate, addError, initResult] at hver
    · intro hor
      rcases hor with h | h <;> simp [validate, addError, initResult] at h
  }

/-- Claim C7: for an object payload whose final result carries no blocking
findings, the compliance level is PLUS or higher exactly when the three raw
field conditions hold (semantic type in the official enum, a context
summary string of length at least 50, a non-empty external signals array);
and a string semantic type outside the enum pins the level at CORE — the
payload still passes, but never reaches PLUS. -/
theorem claim7_plus_gate (kvs : List (String × Json)) (cd : Option String)
    (hb : (validate (Json.obj kvs) cd).blocking_errors = []) :
    (((validate (Json.obj kvs) cd).compliance_level = "PLUS" ∨
        (validate (Json.obj kvs) cd).compliance_level = "VERIFIED-L1") ↔
      ((∃ s, pyGet kvs "semantic_type" = Json.str s ∧ SEMANTIC_TYPES.contains s = true) ∧
        (∃ cm s, pyGet kvs "context" = Json.obj cm ∧ pyGet cm "summary" = Json.str s ∧ 50 ≤ s.length) ∧
        (∃ am l, pyGet kvs "authority" = Json.obj am ∧ pyGet am "external_signals" = Json.arr l ∧ l ≠ []))) ∧
    (∀ s, pyGet kvs "semantic_type" = Json.str s → SEMANTIC_TYPES.contains s = false →
      (validate (Json.obj kvs) cd).compliance_level = "CORE") := by
  have hv : validate (Json.obj kvs) cd = resolveCompliance kvs (runChecks kvs cd initResult) := rfl
  have hbR : (runChecks kvs cd initResult).blocking_errors = [] := by
    obtain ⟨-, hbl, -, -⟩ := resolveCompliance_fields kvs (runChecks kvs cd initResult)
    rw [hv, hbl] at hb
    exact hb
  have hres : validate (Json.obj kvs) cd =
      (if is_enum kvs && has_long_summary kvs && has_signals kvs then
        if is_https kvs && is_verified kvs && high_trust kvs &&
            !has_origin_warning (runChecks kvs cd initResult) then
          { runChecks kvs cd initResult with status := "PASS", compliance_level := "VERIFIED-L1" }
        else { runChecks kvs cd initResult with status := "PASS", compliance_level := "PLUS" }
      else { runChecks kvs cd initResult with status := "PASS", compliance_level := "CORE" }) := by
    rw [hv]
    unfold resolveCompliance
    rw [if_neg (by simp [hbR])]
  constructor
  · by_cases hg : (is_enum kvs && has_long_summary kvs && has_signals kvs) = true
    · rw [hres, if_pos hg]
      rw [Bool.and_eq_true, Bool.and_eq_true] at hg
      obtain ⟨⟨he, hl⟩, hs⟩ := hg
      constructor
      · intro _
        exact ⟨(is_enum_iff kvs).mp he, (has_long_summary_iff kvs).mp hl, (has_signals_iff kvs).mp hs⟩
      · intro _
        by_cases hinner : (is_https kvs && is_verified kvs && high_trust kvs &&
            !has_origin_warning (runChecks kvs cd initResult)) = true
        · rw [if_pos hinner]
          exact Or.inr rfl
        · rw [if_neg hinner]
          exact Or.inl rfl
    · rw [hres, if_neg hg]
      constructor
      · intro hor
        rcases hor with h | h <;> simp at h
      · rintro ⟨he, hl, hs⟩
        exact absurd (by
          rw [Bool.and_eq_true, Bool.and_eq_true]
          exact ⟨⟨(is_enum_iff kvs).mpr he, (has_long_summary_iff kvs).mpr hl⟩,
            (has_signals_iff kvs).mpr hs⟩) hg
  · intro s hsem hnotin
    have hg : (is_enum kvs && has_long_summary kvs && has_signals kvs) = false := by
      have : is_enum kvs = false := by
        unfold is_enum
        rw [hsem]
        simp only [hnotin]
      simp [this]
    rw [hres, if_neg (by simp [hg])]

/-- Claim C4 (counterexample): the source strips EVERY occurrence of
`"www."` (`str.replace`), not only a leading one. For the url
`"https://x.www.y"` with crawled domain `"x.y"`, stripping only a leading
`"www."` (the claim's algorithm, `specStripLeadWww`) leaves the two hosts
different, so the claim predicts an `ORIGIN_MISMATCH` warning and a
20 point deduction — but the code removes the inner `"www."` too, finds the
hosts equal, and emits no warning at all (score stays 100). -/
theorem claim4_counterexample :
    pyUrlparseHostname "https://x.www.y" = Except.ok (some "x.www.y") ∧
    specStripLeadWww "x.www.y" ≠ specStripLeadWww "x.y" ∧
    payload_host (some "x.www.y") = crawled_host (some "x.y") ∧
    (validate innerWwwPayload (some "x.y")).warnings = [] ∧
    (validate innerWwwPayload (some "x.y")).score = 100 := by
  refine ⟨rfl, by decide, rfl, rfl, rfl⟩

/-- Claim C4 (amended): for every payload whose `identity.url` is a string
starting with `"https://"` and a non-empty `crawled_domain`, check 3c
parses the url's host and removes EVERY occurrence of `"www."` (Python
`str.replace`) from both the parsed host and the crawled domain, compares
the two case-sensitively, and on mismatch emits exactly one WARNING finding
with code `ORIGIN_MISMATCH` and a 20 point score deduction, without failing
the validation (the blocking findings and the status are exactly those of
the run without a crawled domain). -/
theorem claim4_amended (kvs im : List (String × Json)) (dm u : String) (oh : Option String)
    (hid : pyGet kvs "identity" = Json.obj im)
    (hurl : pyGet im "url" = Json.str u)
    (hhttps : pyStartsWith u "https://" = true)
    (hdm : dm ≠ "")
    (hparse : pyUrlparseHostname u = Except.ok oh)
    (hne : payload_host oh ≠ crawled_host (some dm)) :
    ((validate (Json.obj kvs) (some dm)).warnings.filter
        (fun g => g.code == "ORIGIN_MISMATCH")).length = 1 ∧
    (validate (Json.obj kvs) (some dm)).blocking_errors = (validate (Json.obj kvs) none).blocking_errors ∧
    (validate (Json.obj kvs) (some dm)).status = (validate (Json.obj kvs) none).status ∧
    ((validate (Json.obj kvs) (some dm)).blocking_errors = [] →
      (validate (Json.obj kvs) (some dm)).score = (validate (Json.obj kvs) none).score - 20) := by
  obtain ⟨bn, hn⟩ := checkIdentityName_delta im
  have hmis := checkIdentityUrl_mismatch im dm u oh hurl hhttps hdm hparse hne
  have hnone0 := checkIdentityUrl_none im u hurl hhttps
  have hsome : ∀ r, checkIdentity kvs (some dm) r =
      applyDelta bn
        [{ code := "ORIGIN_MISMATCH", severity := "WARNING",
           message := "Payload URL domain (" ++ payload_host oh ++ ") != crawled domain (" ++ crawled_host (some dm) ++ ").",
           path := "$.identity.url" }] [] 20 r := by
    intro r
    have h0 : checkIdentity kvs (some dm) r = checkIdentityUrl im (some dm) (checkIdentityName im r) := by
      unfold checkIdentity
      rw [hid]
    rw [h0, hn, hmis, applyDelta_comp]
    simp
  have hnone : ∀ r, checkIdentity kvs none r = applyDelta bn [] [] 0 r := by
    intro r
    have h0 : checkIdentity kvs none r = checkIdentityUrl im none (checkIdentityName im r) := by
      unfold checkIdentity
      rw [hid]
    rw [h0, hn, hnone0]
  obtain ⟨b1, h1⟩ := checkProtocol_delta kvs
  obtain ⟨b2, w2, d2, h2, hw2⟩ := checkSemanticType_delta kvs
  obtain ⟨b4, h4⟩ := checkAuthority_delta kvs
  obtain ⟨b5, h5⟩ := checkEntities_delta kvs
  obtain ⟨b6, h6⟩ := checkOffer_delta kvs
  obtain ⟨b7, w7, d7, h7, hw7⟩ := checkContext_delta kvs
  have hRs : runChecks kvs (some dm) initResult =
      applyDelta b7 w7 [] d7 (applyDelta b6 [] [] 0 (applyDelta b5 [] [] 0 (applyDelta b4 [] [] 0
        (applyDelta bn
          [{ code := "ORIGIN_MISMATCH", severity := "WARNING",
             message := "Payload URL domain (" ++ payload_host oh ++ ") != crawled domain (" ++ crawled_host (some dm) ++ ").",
             path := "$.identity.url" }] [] 20
          (applyDelta b2 w2 [] d2 (applyDelta b1 [] [] 0 initResult)))))) := by
    unfold runChecks
    rw [h1, h2, hsome, h4, h5, h6, h7]
  have hRn : runChecks kvs none initResult =
      applyDelta b7 w7 [] d7 (applyDelta b6 [] [] 0 (applyDelta b5 [] [] 0 (applyDelta b4 [] [] 0
        (applyDelta bn [] [] 0
          (applyDelta b2 w2 [] d2 (applyDelta b1 [] [] 0 initResult)))))) := by
    unfold runChecks
    rw [h1, h2, hnone, h4, h5, h6, h7]
  have hblockR : (runChecks kvs (some dm) initResult).blocking_errors
      = (runChecks kvs none initResult).blocking_errors := by
    rw [hRs, hRn]
    simp [applyDelta_blocking]
  obtain ⟨-, hbl1, hw1, -⟩ := resolveCompliance_fields kvs (runChecks kvs (some dm) initResult)
  obtain ⟨-, hbl2, -, -⟩ := resolveCompliance_fields kvs (runChecks kvs none initResult)
  refine ⟨?_, ?_, ?_, ?_⟩
  · show ((resolveCompliance kvs (runChecks kvs (some dm) initResult)).warnings.filter
      (fun g => g.code == "ORIGIN_MISMATCH")).length = 1
    rw [hw1, hRs]
    have hfw2 : w2.filter (fun g => g.code == "ORIGIN_MISMATCH") = [] := by
      rw [List.filter_eq_nil_iff]
      intro g hg
      simp [hw2 g hg]
    have hfw7 : w7.filter (fun g => g.code == "ORIGIN_MISMATCH") = [] := by
      rw [List.filter_eq_nil_iff]
      intro g hg
      simp [hw7 g hg]
    simp [applyDelta_warnings, initResult, List.filter_append, hfw2, hfw7]
  · show (resolveCompliance kvs (runChecks kvs (some dm) initResult)).blocking_errors
      = (resolveCompliance kvs (runChecks kvs none initResult)).blocking_errors
    rw [hbl1, hbl2]
    exact hblockR
  · show (resolveCompliance kvs (runChecks kvs (some dm) initResult)).status
      = (resolveCompliance kvs (runChecks kvs none initResult)).status
    rw [resolveCompliance_status, resolveCompliance_status, hblockR]
  · intro hbe
    have hbeR : (runChecks kvs (some dm) initResult).blocking_errors = [] := by
      rw [← hbl1]
      exact hbe
    have hbeRn : (runChecks kvs none initResult).blocking_errors = [] := by
      rw [← hblockR]
      exact hbeR
    show (resolveCompliance kvs (runChecks kvs (some dm) initResult)).score
      = (resolveCompliance kvs (runChecks kvs none initResult)).score - 20
    rw [resolveCompliance_score, resolveCompliance_score, if_pos hbeR, if_pos hbeRn, hRs, hRn]
    simp [applyDelta_score, initResult]
    omega

/-- Claim C4 witness: the amended statement at the concrete payload
`{"identity": {"url": "https://other.com"}}` with crawled domain
`"example.com"`. -/
theorem claim4_amended_witness :
    ((validate (Json.obj mismatchPayload) (some "example.com")).warnings.filter
        (fun g => g.code == "ORIGIN_MISMATCH")).length = 1 ∧
    (validate (Json.obj mismatchPayload) (some "example.com")).blocking_errors
      = (validate (Json.obj mismatchPayload) none).blocking_errors ∧
    (validate (Json.obj mismatchPayload) (some "example.com")).status
      = (validate (Json.obj mismatchPayload) none).status ∧
    ((validate (Json.obj mismatchPayload) (some "example.com")).blocking_errors = [] →
      (validate (Json.obj mismatchPayload) (some "example.com")).score
        = (validate (Json.obj mismatchPayload) none).score - 20) :=
  claim4_amended mismatchPayload [("url", Json.str "https://other.com")] "example.com"
    "https://other.com" (some "other.com") rfl rfl rfl (by decide) rfl (by decide)

/-- Claim C7 witness: the gate equivalence applied to the concrete §8
payload with crawled domain `"acme.com"`, whose raw fields satisfy all
three PLUS conditions, so its level is PLUS or higher. -/
theorem claim7_plus_gate_witness :
    (validate (Json.obj fullPayloadFields) (some "acme.com")).compliance_level = "PLUS" ∨
      (validate (Json.obj fullPayloadFields) (some "acme.com")).compliance_level = "VERIFIED-L1" :=
  (claim7_plus_gate fullPayloadFields (some "acme.com") rfl).1.mpr
    ⟨⟨"product", rfl, rfl⟩, ⟨_, scenarioSummary, rfl, rfl, by decide⟩, ⟨_, _, rfl, rfl, List.cons_ne_nil _ _⟩⟩
end NcpValidator
